import Mathlib

/-!
Verification of the quickstart workflow (src/examples/quickstart/before.py).

The script is a strictly sequential Python program:

  `from openai import OpenAI`
  `from dotenv import load_dotenv`
  `load_dotenv()`
  `with OpenAI() as client:`
  `    response = client.chat.completions.create(`
  `        model="gpt-4o-mini",`
  `        messages=[{"role": "user",`
  `                   "content": "Write a haiku about artificial intelligence."}])`
  `print(response)`

We embed it as a function from a `World` (the process environment, the optional
dotenv configuration file, and the remote service behaviour) to a trace of
observable events together with the final outcome.  The external libraries
(`python-dotenv`, the `openai` client) are not part of this repository, so
their behaviour at the points the workflow exercises is modelled from the
specification, as marked on each such definition.
-/

/-- One conversational turn: a role and a text content. -/
structure Message where
  role : String
  content : String
deriving DecidableEq, Repr

/-- The payload submitted to the service: a model identifier and an ordered
sequence of messages. -/
structure CompletionRequest where
  model : String
  messages : List Message
deriving DecidableEq, Repr

/-- The structured result returned by the remote service: an identifier, the
model that answered, and the generated choices (messages). -/
structure CompletionResponse where
  id : String
  model : String
  choices : List Message
deriving DecidableEq, Repr

/-- The error taxonomy of the workflow. -/
inductive Err
  | authentication
  | connection
  | validation
  | service
deriving DecidableEq, Repr

/-- Observable events of one run of the workflow, in the order they happen. -/
inductive Event
  | loadDotenvEv
  | clientAcquire
  | networkCall (req : CompletionRequest)
  | clientRelease
  | stdoutWrite (s : String)
deriving DecidableEq, Repr

/-- First-match lookup in an association-list environment table. -/
def lookupEnv (k : String) : List (String × String) → Option String
  | [] => none
  | kv :: rest => if kv.1 = k then some kv.2 else lookupEnv k rest

/-- Modelled from the spec: `load_dotenv()` merges the `KEY=VALUE` pairs of the
local configuration file into the process environment variable table; a key
already present in the table is kept (the library's default does not override
existing variables); absence of the file is not an error and leaves the table
unchanged. -/
def load_dotenv (file : Option (List (String × String)))
    (env : List (String × String)) : List (String × String) :=
  match file with
  | none => env
  | some kvs =>
      kvs.foldl (fun e kv => if (lookupEnv kv.1 e).isSome then e else e ++ [kv]) env

/-- The environment variable the client reads its credential from. -/
def apiKeyVar : String := "OPENAI_API_KEY"

/-- Modelled from the spec: `OpenAI()` construction fails with an
`AuthenticationError`-class condition when the authentication environment
variable is absent from the table, before any network call is attempted;
otherwise it yields a live client handle. -/
def openAIInit (env : List (String × String)) : Except Err Unit :=
  match lookupEnv apiKeyVar env with
  | none => .error .authentication
  | some _ => .ok ()

/-- Modelled from the spec: `client.chat.completions.create` rejects a request
whose `messages` sequence is empty with a `ValidationError`-class condition
without performing a network call; otherwise it performs exactly one network
call whose outcome is whatever the remote service answers. -/
def create (svc : CompletionRequest → Except Err CompletionResponse)
    (req : CompletionRequest) : List Event × Except Err CompletionResponse :=
  if req.messages = [] then ([], .error .validation)
  else ([.networkCall req], svc req)

/-- The single-quote character, `Char.ofNat 39`. -/
def sqChar : Char := Char.ofNat 39

/-- The backslash character, `Char.ofNat 92`. -/
def bsChar : Char := Char.ofNat 92

/-- Escaping of one character as Python string repr does inside single
quotes: backslash, single quote and newline are escaped, everything else is
kept verbatim. -/
def pyEscapeChar (c : Char) : String :=
  if c = bsChar then String.mk [bsChar, bsChar]
  else if c = sqChar then String.mk [bsChar, sqChar]
  else if c = Char.ofNat 10 then String.mk [bsChar, Char.ofNat 110]
  else String.singleton c

/-- Python repr escaping of a whole string. -/
def pyEscape (s : String) : String :=
  String.join (s.toList.map pyEscapeChar)

/-- Python repr of a string: the escaped text between single quotes. -/
def pyStrRepr (s : String) : String :=
  String.singleton sqChar ++ pyEscape s ++ String.singleton sqChar

/-- Modelled from the spec: the textual representation of one generated
message inside the printed response. -/
def renderMessage (m : Message) : String :=
  "ChatCompletionMessage(content=" ++ pyStrRepr m.content ++
    ", role=" ++ pyStrRepr m.role ++ ")"

/-- Modelled from the spec: `print(response)` writes a human-readable
structural representation of the `CompletionResponse`, embedding every field,
in particular each generated message's content as its Python repr. -/
def render (r : CompletionResponse) : String :=
  "ChatCompletion(id=" ++ pyStrRepr r.id ++ ", choices=[" ++
    String.intercalate ", " (r.choices.map renderMessage) ++
    "], model=" ++ pyStrRepr r.model ++ ")"

/-- Everything outside the workflow that a run depends on: the process
environment at start, the optional local configuration file (as parsed
`KEY=VALUE` pairs, `none` when the file does not exist), and the remote
service's answer to a request. -/
structure World where
  env : List (String × String)
  dotenvFile : Option (List (String × String))
  service : CompletionRequest → Except Err CompletionResponse

/-- The fixed request the script submits (lines 7-15 of before.py). -/
def theRequest : CompletionRequest :=
  { model := "gpt-4o-mini"
    messages := [{ role := "user"
                   content := "Write a haiku about artificial intelligence." }] }

/-- The environment table after the Credential Loader step. -/
def envAfterLoad (w : World) : List (String × String) :=
  load_dotenv w.dotenvFile w.env

/-- The whole workflow of before.py: `load_dotenv()`, then
`with OpenAI() as client:` around one `create` call, the client being released
when the `with` block is exited on any path, then — only on success, and after
the release — `print(response)`.  It returns the trace of observable events
and the outcome (the bound `response` on success, the propagated error
otherwise). -/
def run (w : World) : List Event × Except Err CompletionResponse :=
  match openAIInit (envAfterLoad w) with
  | .error e => ([.loadDotenvEv], .error e)
  | .ok _ =>
      let step := create w.service theRequest
      match step.2 with
      | .error e =>
          ([.loadDotenvEv, .clientAcquire] ++ step.1 ++ [.clientRelease], .error e)
      | .ok resp =>
          ([.loadDotenvEv, .clientAcquire] ++ step.1 ++
            [.clientRelease, .stdoutWrite (render resp)], .ok resp)

/-- The requests sent over the network during a trace, in order. -/
def networkCalls (tr : List Event) : List CompletionRequest :=
  tr.filterMap (fun ev => match ev with
    | .networkCall r => some r
    | _ => none)

/-- The texts written to standard output during a trace, in order. -/
def stdoutWrites (tr : List Event) : List String :=
  tr.filterMap (fun ev => match ev with
    | .stdoutWrite s => some s
    | _ => none)

/-- How many times an event occurs in a trace. -/
def countEv (e : Event) (tr : List Event) : Nat :=
  (tr.filter (fun x => x = e)).length

/-- The content of the fixed mock response used by the test scenarios. -/
def mockContent : String :=
  "Silent circuits hum / Thoughts emerge from data streams / Mind without a soul"

/-- A fixed mock response holding exactly one assistant message with
`mockContent`. -/
def mockResp : CompletionResponse :=
  { id := "chatcmpl-123"
    model := "gpt-4o-mini"
    choices := [{ role := "assistant", content := mockContent }] }

/-- A world with the credential set, no configuration file, and a mocked
service answering `mockResp`. -/
def happyWorld : World :=
  { env := [("OPENAI_API_KEY", "sk-test")]
    dotenvFile := none
    service := fun _ => .ok mockResp }

/-- A world with an empty environment and no configuration file. -/
def noKeyWorld : World :=
  { env := []
    dotenvFile := none
    service := fun _ => .ok mockResp }

/-- A world with the credential set whose mocked service answers a
rate-limit style remote failure. -/
def rateLimitWorld : World :=
  { env := [("OPENAI_API_KEY", "sk-test")]
    dotenvFile := none
    service := fun _ => .error .service }

/-- The empty-messages request used to exercise local validation. -/
def emptyReq : CompletionRequest := { model := "gpt-4o-mini", messages := [] }

set_option maxRecDepth 8000

/-- Case analysis on one run: either the credential is absent and the run
aborts right after the loader, or the client is acquired and the run follows
the service's answer, releasing the client in both cases and printing only on
success. -/
theorem run_cases (w : World) :
    (lookupEnv apiKeyVar (envAfterLoad w) = none ∧
      run w = ([.loadDotenvEv], .error .authentication)) ∨
    ((lookupEnv apiKeyVar (envAfterLoad w)).isSome ∧
      ((∃ e, w.service theRequest = .error e ∧
          run w = ([.loadDotenvEv, .clientAcquire, .networkCall theRequest,
            .clientRelease], .error e)) ∨
        (∃ r, w.service theRequest = .ok r ∧
          run w = ([.loadDotenvEv, .clientAcquire, .networkCall theRequest,
            .clientRelease, .stdoutWrite (render r)], .ok r)))) := by
  rcases hk : lookupEnv apiKeyVar (envAfterLoad w) with _ | k
  · exact Or.inl ⟨rfl, by simp [run, openAIInit, hk]⟩
  · refine Or.inr ⟨by simp, ?_⟩
    rcases hsvc : w.service theRequest with e | r
    · exact Or.inl ⟨e, rfl, by
        have hne : theRequest.messages ≠ [] := by simp [theRequest]
        simp [run, openAIInit, hk, create, hne, hsvc]⟩
    · exact Or.inr ⟨r, rfl, by
        have hne : theRequest.messages ≠ [] := by simp [theRequest]
        simp [run, openAIInit, hk, create, hne, hsvc]⟩

/-- Claim C1: on every exit path that reaches the request step — success or
any error answered by the service (validation, service, connection) — the
client's resources are released exactly once, and they were acquired exactly
once. -/
theorem release_exactly_once (w : World)
    (h : (lookupEnv apiKeyVar (envAfterLoad w)).isSome) :
    countEv .clientRelease (run w).1 = 1 ∧
    countEv .clientAcquire (run w).1 = 1 := by
  rcases run_cases w with ⟨hk, _⟩ | ⟨_, ⟨e, _, hr⟩ | ⟨r, _, hr⟩⟩
  · rw [hk] at h; simp at h
  · rw [hr]; simp [countEv]
  · rw [hr]; simp [countEv]

/-- Witness for C1: in the happy world the client is released exactly once. -/
theorem release_exactly_once_witness :
    (lookupEnv apiKeyVar (envAfterLoad happyWorld)).isSome = true ∧
    (countEv .clientRelease (run happyWorld).1 = 1 ∧
      countEv .clientAcquire (run happyWorld).1 = 1) :=
  ⟨rfl, release_exactly_once happyWorld rfl⟩

/-- Claim C2: when the authentication variable is absent after the loader
ran, the run fails with the authentication error, no network call happens and
nothing is written to standard output. -/
theorem missing_key_aborts_before_network (w : World)
    (h : lookupEnv apiKeyVar (envAfterLoad w) = none) :
    (run w).2 = .error .authentication ∧ networkCalls (run w).1 = [] ∧
    stdoutWrites (run w).1 = [] := by
  have hr : run w = ([.loadDotenvEv], .error .authentication) := by
    simp [run, openAIInit, h]
  rw [hr]
  exact ⟨rfl, rfl, rfl⟩

/-- Witness for C2: the empty-environment world aborts with the
authentication error, no network call, no output. -/
theorem missing_key_aborts_before_network_witness :
    lookupEnv apiKeyVar (envAfterLoad noKeyWorld) = none ∧
    ((run noKeyWorld).2 = .error .authentication ∧
      networkCalls (run noKeyWorld).1 = [] ∧
      stdoutWrites (run noKeyWorld).1 = []) :=
  ⟨rfl, missing_key_aborts_before_network noKeyWorld rfl⟩

/-- Counterexample to claim C3 as stated: the happy world's trace is NOT an
initial segment of the order Loader, acquire, request, render, release — the
script prints the response after the `with` block, so the client is released
before the rendering, not after. -/
theorem render_before_release_refuted :
    ¬ ∃ s t, (run happyWorld).1 ++ t =
      [Event.loadDotenvEv, .clientAcquire, .networkCall theRequest,
        .stdoutWrite s, .clientRelease] := by
  rintro ⟨s, t, h⟩
  have h1 : (run happyWorld).1 =
      [Event.loadDotenvEv, .clientAcquire, .networkCall theRequest,
        .clientRelease, .stdoutWrite (render mockResp)] := rfl
  rw [h1] at h
  simp at h

/-- Claim C3 as amended: every run's trace is an initial segment of the
strictly linear order Loader, client acquisition, request, client release,
rendering — the release comes before the rendering. -/
theorem linear_order_release_before_render (w : World) :
    ∃ s t, (run w).1 ++ t =
      [Event.loadDotenvEv, .clientAcquire, .networkCall theRequest,
        .clientRelease, .stdoutWrite s] := by
  rcases run_cases w with ⟨_, hr⟩ | ⟨_, ⟨e, _, hr⟩ | ⟨r, _, hr⟩⟩
  · exact ⟨"", [.clientAcquire, .networkCall theRequest, .clientRelease,
      .stdoutWrite ""], by rw [hr]; rfl⟩
  · exact ⟨"", [.stdoutWrite ""], by rw [hr]; rfl⟩
  · exact ⟨render r, [], by rw [hr]; simp⟩

/-- Claim C4: submitting a request whose messages sequence is empty fails
with the validation error and performs no network call. -/
theorem empty_messages_rejected_locally
    (svc : CompletionRequest → Except Err CompletionResponse)
    (req : CompletionRequest) (h : req.messages = []) :
    (create svc req).2 = .error .validation ∧
    networkCalls (create svc req).1 = [] := by
  simp [create, h, networkCalls]

/-- Witness for C4: the concrete empty-messages request is rejected without
a network call. -/
theorem empty_messages_rejected_locally_witness :
    emptyReq.messages = [] ∧
    ((create (fun _ => .ok mockResp) emptyReq).2 = .error .validation ∧
      networkCalls (create (fun _ => .ok mockResp) emptyReq).1 = []) :=
  ⟨rfl, empty_messages_rejected_locally (fun _ => .ok mockResp) emptyReq rfl⟩

/-- Claim C5: for the fixed mock response holding exactly one assistant
message with the haiku content, the single text written to standard output
contains that content verbatim. -/
theorem rendered_output_contains_content :
    stdoutWrites (run happyWorld).1 = [render mockResp] ∧
    ∃ a b, render mockResp = a ++ mockContent ++ b := by
  refine ⟨rfl,
    "ChatCompletion(id=" ++ String.singleton sqChar ++ "chatcmpl-123" ++
      String.singleton sqChar ++ ", choices=[ChatCompletionMessage(content=" ++
      String.singleton sqChar,
    String.singleton sqChar ++ ", role=" ++ String.singleton sqChar ++
      "assistant" ++ String.singleton sqChar ++ ")], model=" ++
      String.singleton sqChar ++ "gpt-4o-mini" ++ String.singleton sqChar ++ ")",
    ?_⟩
  rfl

/-- Claim C6: whenever the client is constructed, the run performs exactly
one network call, and its payload is exactly the fixed request with model
gpt-4o-mini and the single user message asking for the haiku. -/
theorem exactly_one_request_fixed_payload (w : World)
    (h : (lookupEnv apiKeyVar (envAfterLoad w)).isSome) :
    networkCalls (run w).1 = [theRequest] ∧
    theRequest = { model := "gpt-4o-mini"
                   messages := [{ role := "user"
                                  content := "Write a haiku about artificial intelligence." }] } := by
  rcases run_cases w with ⟨hk, _⟩ | ⟨_, ⟨e, _, hr⟩ | ⟨r, _, hr⟩⟩
  · rw [hk] at h; simp at h
  · rw [hr]; exact ⟨rfl, rfl⟩
  · rw [hr]; exact ⟨rfl, rfl⟩

/-- Witness for C6: the happy world performs exactly one network call with
the fixed payload. -/
theorem exactly_one_request_fixed_payload_witness :
    (lookupEnv apiKeyVar (envAfterLoad happyWorld)).isSome = true ∧
    (networkCalls (run happyWorld).1 = [theRequest] ∧
      theRequest = { model := "gpt-4o-mini"
                     messages := [{ role := "user"
                                    content := "Write a haiku about artificial intelligence." }] }) :=
  ⟨rfl, exactly_one_request_fixed_payload happyWorld rfl⟩

/-- Claim C7: once the client is constructed, the run's outcome is an error
of a given class exactly when the service raised that very error — nothing is
caught, translated or recovered locally — at most one request is ever issued
(no retry), and an erroneous run writes nothing to standard output. -/
theorem errors_propagate_unchanged (w : World) (e : Err)
    (h : (lookupEnv apiKeyVar (envAfterLoad w)).isSome) :
    (w.service theRequest = .error e ↔ (run w).2 = .error e) ∧
    (networkCalls (run w).1).length ≤ 1 ∧
    ((run w).2 = .error e → stdoutWrites (run w).1 = []) := by
  rcases run_cases w with ⟨hk, _⟩ | ⟨_, ⟨f, hsvc, hr⟩ | ⟨r, hsvc, hr⟩⟩
  · rw [hk] at h; simp at h
  · rw [hr, hsvc]
    refine ⟨⟨fun hfe => by simpa using hfe, fun hfe => by simpa using hfe⟩,
      by simp [networkCalls], fun _ => rfl⟩
  · rw [hr, hsvc]
    exact ⟨⟨fun hfe => by simp at hfe, fun hfe => by simp at hfe⟩,
      by simp [networkCalls], fun hfe => by simp at hfe⟩

/-- Witness for C7: the rate-limited world propagates the service error
unchanged, makes one request and writes nothing. -/
theorem errors_propagate_unchanged_witness :
    (lookupEnv apiKeyVar (envAfterLoad rateLimitWorld)).isSome = true ∧
    ((rateLimitWorld.service theRequest = .error .service ↔
        (run rateLimitWorld).2 = .error .service) ∧
      (networkCalls (run rateLimitWorld).1).length ≤ 1 ∧
      ((run rateLimitWorld).2 = .error .service →
        stdoutWrites (run rateLimitWorld).1 = [])) :=
  ⟨rfl, errors_propagate_unchanged rateLimitWorld .service rfl⟩

/-- Claim C8: the loader is the first event of every run, and when there is
no configuration file it leaves the environment table unchanged. -/
theorem loader_runs_first_missing_file_noop (w : World)
    (h : w.dotenvFile = none) :
    envAfterLoad w = w.env ∧ (run w).1.head? = some .loadDotenvEv := by
  refine ⟨by simp [envAfterLoad, load_dotenv, h], ?_⟩
  rcases run_cases w with ⟨_, hr⟩ | ⟨_, ⟨e, _, hr⟩ | ⟨r, _, hr⟩⟩ <;> rw [hr] <;> rfl

/-- Witness for C8: the happy world has no configuration file, its loader is
a no-op and runs first. -/
theorem loader_runs_first_missing_file_noop_witness :
    happyWorld.dotenvFile = none ∧
    (envAfterLoad happyWorld = happyWorld.env ∧
      (run happyWorld).1.head? = some .loadDotenvEv) :=
  ⟨rfl, loader_runs_first_missing_file_noop happyWorld rfl⟩

/-- Claim C9: on success the response the service produced is returned to
the caller with every field unchanged by the render step, and the render
step's only event is the single write of the rendered text to standard
output, at the end of the trace. -/
theorem render_preserves_response (w : World) (resp : CompletionResponse)
    (hk : (lookupEnv apiKeyVar (envAfterLoad w)).isSome)
    (hsvc : w.service theRequest = .ok resp) :
    (run w).2 = .ok resp ∧
    (∀ r, (run w).2 = .ok r →
      r.id = resp.id ∧ r.model = resp.model ∧ r.choices = resp.choices) ∧
    (run w).1 = [.loadDotenvEv, .clientAcquire, .networkCall theRequest,
      .clientRelease, .stdoutWrite (render resp)] := by
  rcases run_cases w with ⟨hke, _⟩ | ⟨_, ⟨e, hs, hr⟩ | ⟨r, hs, hr⟩⟩
  · rw [hke] at hk; simp at hk
  · rw [hsvc] at hs; simp at hs
  · rw [hsvc] at hs
    have hre : r = resp := by simpa using hs.symm
    subst hre
    rw [hr]
    exact ⟨rfl, fun r' hr' => by simp at hr'; simp [hr'], rfl⟩

/-- Witness for C9: the happy world returns the mock response unchanged and
writes its rendering once, after the release. -/
theorem render_preserves_response_witness :
    (lookupEnv apiKeyVar (envAfterLoad happyWorld)).isSome = true ∧
    happyWorld.service theRequest = .ok mockResp ∧
    ((run happyWorld).2 = .ok mockResp ∧
      (∀ r, (run happyWorld).2 = .ok r →
        r.id = mockResp.id ∧ r.model = mockResp.model ∧
          r.choices = mockResp.choices) ∧
      (run happyWorld).1 = [.loadDotenvEv, .clientAcquire,
        .networkCall theRequest, .clientRelease,
        .stdoutWrite (render mockResp)]) :=
  ⟨rfl, rfl, render_preserves_response happyWorld mockResp rfl rfl⟩

/-- A key found in a table is still found, with the same value, after
appending entries on the right. -/
theorem lookupEnv_append_left (k v : String) (e l : List (String × String))
    (h : lookupEnv k e = some v) : lookupEnv k (e ++ l) = some v := by
  induction e with
  | nil => simp [lookupEnv] at h
  | cons kv rest ih =>
    by_cases hk : kv.1 = k
    · simp [lookupEnv, hk] at h ⊢; exact h
    · simp [lookupEnv, hk] at h ⊢; exact ih h

/-- The merge loop of `load_dotenv` never changes the value of a key that is
already present in the table. -/
theorem load_dotenv_foldl_preserve (k v : String)
    (kvs : List (String × String)) (env : List (String × String))
    (h : lookupEnv k env = some v) :
    lookupEnv k (kvs.foldl
      (fun e kv => if (lookupEnv kv.1 e).isSome then e else e ++ [kv]) env) =
      some v := by
  induction kvs generalizing env with
  | nil => simpa using h
  | cons kv rest ih =>
    simp only [List.foldl_cons]
    by_cases hx : (lookupEnv kv.1 env).isSome
    · rw [if_pos hx]; exact ih env h
    · rw [if_neg hx]; exact ih _ (lookupEnv_append_left k v env [kv] h)

/-- Claim C10: a variable already set in the environment keeps its value
through the loader, even when the configuration file defines the same key. -/
theorem existing_env_takes_precedence (k v : String)
    (env file : List (String × String))
    (h : lookupEnv k env = some v) :
    lookupEnv k (load_dotenv (some file) env) = some v := by
  simpa [load_dotenv] using load_dotenv_foldl_preserve k v file env h

/-- Witness for C10: a key set in the environment survives a configuration
file that redefines it. -/
theorem existing_env_takes_precedence_witness :
    lookupEnv "OPENAI_API_KEY" [("OPENAI_API_KEY", "sk-env")] = some "sk-env" ∧
    lookupEnv "OPENAI_API_KEY"
      (load_dotenv (some [("OPENAI_API_KEY", "sk-file"), ("OPENAI_ORG", "org-1")])
        [("OPENAI_API_KEY", "sk-env")]) = some "sk-env" :=
  ⟨rfl, existing_env_takes_precedence "OPENAI_API_KEY" "sk-env"
    [("OPENAI_API_KEY", "sk-env")]
    [("OPENAI_API_KEY", "sk-file"), ("OPENAI_ORG", "org-1")] rfl⟩
